import Mathlib

/-!
Shallow embedding of the Virtual-Reviewer interview client:
the session protocol client (`src/api/interviewApi.ts`), the interview
orchestrator component (`InterviewRoom`), and the real-time media session
controller (`AvatarVideo`).  Machine-level browser details (actual network
transport, DOM, media devices) are modelled as explicit outcome parameters;
each embedded function mirrors the control flow of its source function.
-/

namespace VirtualReviewer

/-- JavaScript truthiness of an optional string field: `none` (absent /
`null`) and the empty string are falsy, every other string is truthy. -/
def truthy : Option String → Bool
  | none => false
  | some s => !(s == "")

/-- The pattern `error.detail || fallback` used throughout the API module:
take the detail field when it is truthy, else the fallback message. -/
def detailOr (detail : Option String) (fallback : String) : String :=
  match detail with
  | none => fallback
  | some s => if s == "" then fallback else s

/-- Whether the first list is an initial segment of the second. -/
def leadsWith : List Char → List Char → Bool
  | [], _ => true
  | _ :: _, [] => false
  | a :: as, b :: bs => a == b && leadsWith as bs

/-- Whether the needle occurs contiguously inside the haystack. -/
def hasInfixChars (needle : List Char) : List Char → Bool
  | [] => leadsWith needle []
  | b :: bs => leadsWith needle (b :: bs) || hasInfixChars needle bs

/-- JavaScript `haystack.includes(needle)`. -/
def strIncludes (haystack needle : String) : Bool :=
  hasInfixChars needle.data haystack.data

/-- ASCII lower-casing of one character (the fragment of JavaScript
`toLowerCase` the concurrency-limit check relies on). -/
def lowerChar (c : Char) : Char :=
  if 65 ≤ c.toNat ∧ c.toNat ≤ 90 then Char.ofNat (c.toNat + 32) else c

/-- ASCII lower-casing of a string. -/
def lowerStr (s : String) : String :=
  String.mk (s.data.map lowerChar)

/-! ## Data model of the session protocol (response shapes) -/

/-- Week metadata carried by the create-session response. -/
structure WeekInfo where
  week : Nat
  title : String
  description : String
  concepts : List String
deriving DecidableEq, Repr

/-- Success shape of `createInterviewSession`. -/
structure InterviewSessionResponse where
  session_id : String
  week : WeekInfo
  total_questions : Nat
deriving DecidableEq, Repr

/-- Success shape of `getQuestion`. -/
structure QuestionResponse where
  question_text : String
  question_index : Nat
deriving DecidableEq, Repr

/-- Success shape of `speakTTS`: a URL and/or inline base64 audio. -/
structure TTSResponse where
  audio_url : String
  audio_base64 : Option String
deriving DecidableEq, Repr

/-- Structured feedback inside a submit-answer response. -/
structure Feedback where
  score : Int
  missed_points : List String
  red_flags : List String
  summary : String
deriving DecidableEq, Repr

/-- Success shape of `submitAnswer`. -/
structure SubmitAnswerResponse where
  transcript : String
  score : Int
  feedback : Feedback
  current_question : String
  next_question : Option String
  question_index : Nat
  is_complete : Bool
deriving DecidableEq, Repr

/-- Success shape of `getSessionResults`. -/
structure SessionResultsResponse where
  performance_score : Int
  mentor_feedback : String
  time_elapsed_sec : Nat
  time_elapsed_formatted : String
  skill_breakdown : List (String × Int)
  questions_answered : Nat
  average_score : Int
deriving DecidableEq, Repr

/-- Success shape of `completeSession` (`{success}` acknowledgement). -/
structure SuccessAck where
  success : Bool
deriving DecidableEq, Repr

/-- Success shape of `createAvatarSession`. -/
structure AvatarSessionResponse where
  session_token : String
  session_id : String
  livekit_url : String
  livekit_token : String
  room_name : String
  ws_url : Option String
  max_session_duration : Option Nat
deriving DecidableEq, Repr

/-! ## The session protocol client (`interviewApi.ts`) -/

/-- A settled `fetch` response as the API functions observe it: the `ok`
flag (2xx transport status), the status text, the `detail` field of the
parsed JSON body when present (an unparseable error body is modelled as
`detail = some statusText`, matching the `.catch` fallback object), and
the typed payload of the body. -/
structure ApiResponse (β : Type) where
  ok : Bool
  statusText : String
  detail : Option String
  body : β
deriving DecidableEq, Repr

/-- An `Error` thrown by the API module; `isConcurrencyLimit` is the extra
tag set on concurrency-limit failures of `createAvatarSession`. -/
structure ApiError where
  message : String
  isConcurrencyLimit : Bool
deriving DecidableEq, Repr

/-- Embeds `createInterviewSession`: non-2xx throws `detail || fallback`;
a 2xx body with a truthy `detail` field throws; a 2xx body with an empty
`session_id` throws; otherwise the body is returned. -/
def createInterviewSession (res : ApiResponse InterviewSessionResponse) :
    Except ApiError InterviewSessionResponse :=
  if !res.ok then
    .error ⟨detailOr res.detail
      ("Failed to create interview session: " ++ res.statusText), false⟩
  else if truthy res.detail then
    .error ⟨(res.detail.getD ""), false⟩
  else if res.body.session_id == "" then
    .error ⟨"Missing session_id in response", false⟩
  else
    .ok res.body

/-- Embeds `submitAnswer`: non-2xx throws `detail || fallback`; every 2xx
body is returned as-is (no `detail` check on success responses). -/
def submitAnswer (res : ApiResponse SubmitAnswerResponse) :
    Except ApiError SubmitAnswerResponse :=
  if !res.ok then
    .error ⟨detailOr res.detail
      ("Failed to submit answer: " ++ res.statusText), false⟩
  else
    .ok res.body

/-- Embeds `getQuestion`: non-2xx throws; every 2xx body is returned. -/
def getQuestion (res : ApiResponse QuestionResponse) :
    Except ApiError QuestionResponse :=
  if !res.ok then
    .error ⟨detailOr res.detail
      ("Failed to get question: " ++ res.statusText), false⟩
  else
    .ok res.body

/-- Embeds `speakTTS`: non-2xx throws; every 2xx body is returned. -/
def speakTTS (res : ApiResponse TTSResponse) :
    Except ApiError TTSResponse :=
  if !res.ok then
    .error ⟨detailOr res.detail
      ("Failed to generate TTS: " ++ res.statusText), false⟩
  else
    .ok res.body

/-- Embeds `completeSession`: non-2xx throws; every 2xx body is returned. -/
def completeSession (res : ApiResponse SuccessAck) :
    Except ApiError SuccessAck :=
  if !res.ok then
    .error ⟨detailOr res.detail
      ("Failed to complete session: " ++ res.statusText), false⟩
  else
    .ok res.body

/-- Embeds `getSessionResults`: non-2xx throws; every 2xx body is
returned. -/
def getSessionResults (res : ApiResponse SessionResultsResponse) :
    Except ApiError SessionResultsResponse :=
  if !res.ok then
    .error ⟨detailOr res.detail
      ("Failed to get session results: " ++ res.statusText), false⟩
  else
    .ok res.body

/-- The error construction both failure paths of `createAvatarSession`
repeat: tag the error as a concurrency-limit failure exactly when the
lower-cased message contains "concurrency limit". -/
def taggedAvatarError (errorMessage : String) : ApiError :=
  if strIncludes (lowerStr errorMessage) "concurrency limit" then
    ⟨errorMessage, true⟩
  else
    ⟨errorMessage, false⟩

/-- Embeds `createAvatarSession`: non-2xx builds `detail || fallback` and
tags the error as a concurrency-limit failure when the lower-cased message
contains "concurrency limit"; a 2xx body with a truthy `detail` field is
likewise a (possibly tagged) failure; a 2xx body missing `livekit_url` or
`livekit_token` is a generic failure; otherwise the body is returned. -/
def createAvatarSession (res : ApiResponse AvatarSessionResponse) :
    Except ApiError AvatarSessionResponse :=
  if !res.ok then
    .error (taggedAvatarError (detailOr res.detail
      ("Failed to create avatar session: " ++ res.statusText)))
  else if truthy res.detail then
    .error (taggedAvatarError (res.detail.getD ""))
  else if res.body.livekit_url == "" || res.body.livekit_token == "" then
    .error ⟨"Missing LiveKit connection details in response", false⟩
  else
    .ok res.body

/-! ## The interview orchestrator (`InterviewRoom`) -/

/-- The orchestrator's phase enum (`interviewState`). -/
inductive InterviewPhase
  | idle
  | asking
  | listening
  | processing
  | completing
deriving DecidableEq, Repr

/-- An HTML audio element as the orchestrator observes it (its `src`). -/
structure AudioEl where
  src : String
deriving DecidableEq, Repr

deriving instance DecidableEq for Except

/-- Environment of one `playTTSAudio` invocation: how the `speakTTS` call
settles, and whether `audio.play()` resolves (false covers device,
decode and autoplay rejections). -/
structure TTSEnv where
  ttsOutcome : Except ApiError TTSResponse
  playOk : Bool
deriving DecidableEq, Repr

/-- A failure raised inside the `try` block of `playTTSAudio`. -/
inductive PlayErr
  | ttsRequestFailed (e : ApiError)
  | playRejected
deriving DecidableEq, Repr

/-- The `try` block of `playTTSAudio`: request TTS, then set up the audio
element (reuse `audioRef` for a URL source by rewriting its `src`, build a
fresh element for inline base64) and start playback.  Returns the audio
element state after the block together with the error it raised, if any
(the `src` assignment precedes `play()`, so the element survives a
playback rejection). -/
def playTTSAttempt (audioRef : Option AudioEl) (env : TTSEnv) :
    Option AudioEl × Option PlayErr :=
  match env.ttsOutcome with
  | .error e => (audioRef, some (.ttsRequestFailed e))
  | .ok tts =>
    if !(tts.audio_url == "") then
      (some ⟨tts.audio_url⟩, if env.playOk then none else some .playRejected)
    else if truthy tts.audio_base64 then
      (some ⟨"data:audio/mpeg;base64," ++ tts.audio_base64.getD ""⟩,
       if env.playOk then none else some .playRejected)
    else
      (audioRef, none)

/-- Embeds `playTTSAudio`: the whole body sits in a `try` whose `catch`
only logs, so the function always resolves; its sole effect on state is
the new audio element. -/
def playTTSAudio (audioRef : Option AudioEl) (env : TTSEnv) : Option AudioEl :=
  (playTTSAttempt audioRef env).1

/-- The component state of `InterviewRoom` that the orchestrator logic
reads and writes. -/
structure RoomState where
  hasStarted : Bool
  hasFinished : Bool
  isListening : Bool
  currentQuestionIndex : Nat
  timer : Nat
  interviewState : InterviewPhase
  sessionId : Option String
  weekData : Option WeekInfo
  currentQuestion : String
  sessionResults : Option SessionResultsResponse
  apiConnectionError : Bool
  isInitializing : Bool
  audioRef : Option AudioEl
deriving DecidableEq, Repr

/-- A timer the orchestrator arms with `setTimeout`, with its delay in
milliseconds. -/
inductive ScheduledTask
  | completionDelay (ms : Nat)
  | idleDelay (ms : Nat)
deriving DecidableEq, Repr

/-- Protocol calls issued by a deferred completion task. -/
inductive ApiCall
  | completeSessionCall
  | getResultsCall
deriving DecidableEq, Repr

/-- Embeds `handleUserResponse` up to the settlement of `submitAnswer`
(the guard `if (!sessionId) return` precedes the call): a rejection hits
the `catch` and resets the phase to `idle`; a result with `is_complete`
moves to `completing` and arms the 2.5s completion timer; a result with a
truthy `next_question` stores the question and its index, moves to
`asking`, plays the question audio and arms the 1s idle timer; any other
result matches no branch and leaves the state untouched. -/
def handleUserResponse (s : RoomState)
    (outcome : Except ApiError SubmitAnswerResponse) (env : TTSEnv) :
    RoomState × Option ScheduledTask :=
  match s.sessionId with
  | none => (s, none)
  | some _ =>
    match outcome with
    | .error _ => ({ s with interviewState := .idle }, none)
    | .ok data =>
      if data.is_complete then
        ({ s with interviewState := .completing }, some (.completionDelay 2500))
      else if truthy data.next_question then
        let s2 := { s with currentQuestion := data.next_question.getD "",
                           currentQuestionIndex := data.question_index,
                           interviewState := .asking }
        ({ s2 with audioRef := playTTSAudio s2.audioRef env },
         some (.idleDelay 1000))
      else
        (s, none)

/-- Embeds the body of the 2.5s `setTimeout` armed in the `is_complete`
branch: `completeSession` then `getSessionResults`, each awaited; a
rejection of either stops the body (an unhandled rejection), so the
results are stored and `hasFinished` is set only when both succeed.  The
returned list records the protocol calls the body issued, in order. -/
def runCompletionTask (s : RoomState)
    (completeOutcome : Except ApiError SuccessAck)
    (resultsOutcome : Except ApiError SessionResultsResponse) :
    RoomState × List ApiCall :=
  match completeOutcome with
  | .error _ => (s, [.completeSessionCall])
  | .ok _ =>
    match resultsOutcome with
    | .error _ => (s, [.completeSessionCall, .getResultsCall])
    | .ok results =>
        ({ s with sessionResults := some results, hasFinished := true },
         [.completeSessionCall, .getResultsCall])

/-- Embeds the body of the 1s `setTimeout` armed in the `next_question`
branch: it only resets the phase to `idle`. -/
def runIdleDelay (s : RoomState) : RoomState :=
  { s with interviewState := .idle }

/-- What a `toggleMic` invocation did to the recorder. -/
inductive MicAction
  | startedRecording
  | startFailed
  | requestedStop
deriving DecidableEq, Repr

/-- Embeds `toggleMic`: ignored during `asking`/`completing`; when not
listening it enters `listening` and acquires the microphone (`micOk`
false models `getUserMedia` rejecting, whose `catch` drops back to
`idle`); when listening it leaves `isListening`, enters `processing` and
asks the recorder to stop (the submission follows from `onstop`). -/
def toggleMic (s : RoomState) (micOk : Bool) : RoomState × Option MicAction :=
  if s.interviewState == .asking || s.interviewState == .completing then
    (s, none)
  else if !s.isListening then
    if micOk then
      ({ s with isListening := true, interviewState := .listening },
       some .startedRecording)
    else
      ({ s with isListening := false, interviewState := .idle },
       some .startFailed)
  else
    ({ s with isListening := false, interviewState := .processing },
     some .requestedStop)

/-- Embeds `initializeSession`: create the session, fetch question 0,
store its text and index 0, play it (never fatal), settle to `idle` and
report success; any create/fetch failure sets `apiConnectionError` and
reports failure; `isInitializing` is cleared on every path (`finally`). -/
def initializeSession (s : RoomState)
    (createOutcome : Except ApiError InterviewSessionResponse)
    (questionOutcome : Except ApiError QuestionResponse) (env : TTSEnv) :
    RoomState × Bool :=
  let s0 := { s with isInitializing := true, apiConnectionError := false }
  match createOutcome with
  | .error _ => ({ s0 with apiConnectionError := true, isInitializing := false }, false)
  | .ok response =>
    let s1 := { s0 with sessionId := some response.session_id,
                        weekData := some response.week }
    match questionOutcome with
    | .error _ => ({ s1 with apiConnectionError := true, isInitializing := false }, false)
    | .ok q =>
      let s2 := { s1 with currentQuestion := q.question_text,
                          currentQuestionIndex := 0 }
      let s3 := { s2 with audioRef := playTTSAudio s2.audioRef env }
      ({ s3 with interviewState := .idle, apiConnectionError := false,
                 isInitializing := false }, true)

/-- The sequence of `currentQuestionIndex` values the orchestrator holds
while processing a list of `submitAnswer` settlements, starting from `s`
(the start value included). -/
def indexTrace (env : TTSEnv) (s : RoomState) :
    List (Except ApiError SubmitAnswerResponse) → List Nat
  | [] => [s.currentQuestionIndex]
  | o :: rest =>
      s.currentQuestionIndex :: indexTrace env (handleUserResponse s o env).1 rest

/-- The `question_index` values a list of settlements actually assigns to
`currentQuestionIndex` (only a fulfilled result that is not complete and
has a truthy `next_question` assigns). -/
def assignedIndices : List (Except ApiError SubmitAnswerResponse) → List Nat
  | [] => []
  | .error _ :: rest => assignedIndices rest
  | .ok d :: rest =>
      if d.is_complete then assignedIndices rest
      else if truthy d.next_question then d.question_index :: assignedIndices rest
      else assignedIndices rest

/-! ## The real-time media session controller (`AvatarVideo`) -/

/-- Connection state of a LiveKit `Room` handle. -/
inductive RoomConnState
  | disconnected
  | connecting
  | connected
deriving DecidableEq, Repr

/-- A LiveKit room handle as the controller observes it. -/
structure LiveRoom where
  state : RoomConnState
deriving DecidableEq, Repr

/-- The mutable state of one `AvatarVideo` component instance: the
`roomRef`, `isCreatingRef`, `hasSessionRef` refs, the `isConnected` and
`showAudioEnableButton` React state, and the attached audio elements. -/
structure AvatarState where
  room : Option LiveRoom
  isCreating : Bool
  hasSession : Bool
  isConnected : Bool
  audioElements : List AudioEl
  showAudioEnableButton : Bool
deriving DecidableEq, Repr

/-- The state of a freshly mounted `AvatarVideo` instance. -/
def initialAvatarState : AvatarState :=
  { room := none, isCreating := false, hasSession := false,
    isConnected := false, audioElements := [], showAudioEnableButton := false }

/-- The assignments performed by the tail of `disconnect`: room handle
cleared, connection flag down, session and creation flags reset, audio
element list emptied. -/
def clearedAvatar (s : AvatarState) : AvatarState :=
  { s with room := none, isConnected := false, hasSession := false,
           isCreating := false, audioElements := [] }

/-- Embeds `disconnect`: when a room handle exists and is connected, the
underlying `room.disconnect()` is awaited (`roomDisconnectOk` models its
settlement; its rejection is rethrown by the `catch`, before any of the
clearing assignments run); on every non-throwing path the state is
cleared. -/
def disconnect (s : AvatarState) (roomDisconnectOk : Bool) :
    Except Unit AvatarState :=
  match s.room with
  | some r =>
    if r.state == .connected then
      if roomDisconnectOk then .ok (clearedAvatar s) else .error ()
    else .ok (clearedAvatar s)
  | none => .ok (clearedAvatar s)

/-- One browser tab as the controller sees it: a component instance plus
the `sessionStorage` entry under the key "avatarSessionToken".  The body
of `disconnect` never references `sessionStorage`, so the tab-level
operation below only maps `disconnect` over the component state. -/
structure TabState where
  avatar : AvatarState
  storageToken : Option String
deriving DecidableEq, Repr

/-- `disconnect` viewed at tab level: the storage entry is untouched. -/
def disconnectTab (t : TabState) (roomDisconnectOk : Bool) :
    Except Unit TabState :=
  match disconnect t.avatar roomDisconnectOk with
  | .ok a => .ok { t with avatar := a }
  | .error e => .error e

/-- The control message `speak` serializes onto the data channel. -/
structure AvatarSpeakEvent where
  event_type : String
  text : String
deriving DecidableEq, Repr

/-- How a `speak(text)` invocation ended. -/
inductive SpeakOutcome
  | warnedNoRoom
  | warnedNotConnected (st : RoomConnState)
  | published (event : AvatarSpeakEvent) (topic : String)
deriving DecidableEq, Repr

/-- The payload the data channel received from a `speak` outcome, if
any. -/
def publishedEvent : SpeakOutcome → Option AvatarSpeakEvent
  | .published e _ => some e
  | _ => none

/-- Embeds `speak`: warns and returns when no room handle exists or the
room is not connected; otherwise publishes the
`avatar.speak_text` event on the "agent-control" topic (`publishOk`
models `publishData` settling; its rejection is rethrown). -/
def speak (s : AvatarState) (text : String) (publishOk : Bool) :
    Except Unit SpeakOutcome :=
  match s.room with
  | none => .ok .warnedNoRoom
  | some r =>
    if !(r.state == .connected) then
      .ok (.warnedNotConnected r.state)
    else if publishOk then
      .ok (.published ⟨"avatar.speak_text", text⟩ "agent-control")
    else
      .error ()

/-- Calls the mount effect makes on the session protocol client. -/
inductive AvatarAction
  | createRealtimeSessionCall
deriving DecidableEq, Repr

/-- Environment of one mount-effect run: the cached `sessionStorage`
token, the settlement `createAvatarSession` would have, and whether
`room.connect` resolves. -/
structure MountEnv where
  storageToken : Option String
  createOutcome : Except ApiError AvatarSessionResponse
  connectOk : Bool
deriving DecidableEq, Repr

/-- Embeds the mount effect of `AvatarVideo`: bail out when a creation is
in flight or a session exists; bail out marking `hasSession` when a
truthy token is cached in session storage; otherwise run `connectAvatar`:
mark creating, call `createAvatarSession` (always recorded as an action),
and on success with the required connection fields present create a room
handle and connect it (the `Connected` room event raises `isConnected`);
every settlement lowers `isCreating` again. -/
def mountEffect (s : AvatarState) (env : MountEnv) :
    AvatarState × List AvatarAction :=
  if s.isCreating || s.hasSession then (s, [])
  else if truthy env.storageToken then ({ s with hasSession := true }, [])
  else
    let s1 := { s with isCreating := true }
    match env.createOutcome with
    | .error _ => ({ s1 with isCreating := false }, [.createRealtimeSessionCall])
    | .ok data =>
      if data.livekit_url == "" || data.livekit_token == "" then
        ({ s1 with isCreating := false }, [.createRealtimeSessionCall])
      else
        let s2 := { s1 with hasSession := true, room := some ⟨.connecting⟩ }
        if env.connectOk then
          ({ s2 with room := some ⟨.connected⟩, isConnected := true,
                     isCreating := false }, [.createRealtimeSessionCall])
        else
          ({ s2 with room := some ⟨.disconnected⟩, isCreating := false },
           [.createRealtimeSessionCall])

/-- A remount at tab level: a fresh component instance (fresh refs and
state) mounts against the tab's cached storage token. -/
def mountTab (t : TabState) (createOutcome : Except ApiError AvatarSessionResponse)
    (connectOk : Bool) : TabState × List AvatarAction :=
  let r := mountEffect initialAvatarState ⟨t.storageToken, createOutcome, connectOk⟩
  ({ t with avatar := r.1 }, r.2)

/-! ## Concrete fixtures used by witnesses and counterexamples -/

/-- A sample feedback record. -/
def exFeedback : Feedback := ⟨80, [], [], "good answer"⟩

/-- A submit-answer result that advances to question 1. -/
def exSubmitNext : SubmitAnswerResponse :=
  ⟨"my answer", 80, exFeedback, "Q1", some "Q2", 1, false⟩

/-- A submit-answer result that completes the interview. -/
def exSubmitComplete : SubmitAnswerResponse :=
  ⟨"my last answer", 80, exFeedback, "Q2", none, 2, true⟩

/-- A submit-answer result that is neither complete nor carries a next
question. -/
def exSubmitStuck : SubmitAnswerResponse :=
  ⟨"my answer", 80, exFeedback, "Q1", none, 1, false⟩

/-- A submit-answer result whose echoed index goes backwards. -/
def exSubmitBack : SubmitAnswerResponse :=
  ⟨"my answer", 70, exFeedback, "Q2", some "Q3", 0, false⟩

/-- A sample final results record. -/
def exResults : SessionResultsResponse := ⟨90, "well done", 300, "05:00", [], 2, 85⟩

/-- A playback environment where TTS and playback both succeed. -/
def exTTSEnv : TTSEnv := ⟨.ok ⟨"https://cdn.example/q.mp3", none⟩, true⟩

/-- A playback environment where the TTS request itself fails. -/
def exTTSFailEnv : TTSEnv := ⟨.error ⟨"tts backend down", false⟩, false⟩

/-- An orchestrator state in the `processing` phase of session "s1". -/
def exRoomProcessing : RoomState :=
  { hasStarted := true, hasFinished := false, isListening := false,
    currentQuestionIndex := 0, timer := 30, interviewState := .processing,
    sessionId := some "s1", weekData := none, currentQuestion := "Q1",
    sessionResults := none, apiConnectionError := false,
    isInitializing := false, audioRef := none }

/-- The same orchestrator state settled in the `idle` phase. -/
def exRoomIdle : RoomState := { exRoomProcessing with interviewState := .idle }

/-- A connected avatar controller holding one attached audio element. -/
def exConnAvatar : AvatarState :=
  { room := some ⟨.connected⟩, isCreating := false, hasSession := true,
    isConnected := true, audioElements := [⟨"blob:a"⟩],
    showAudioEnableButton := false }

/-- A sample avatar-session success payload. -/
def exAvatarSession : AvatarSessionResponse :=
  ⟨"tok-1", "as-1", "wss://lk.example", "jwt-token", "room-1", none, none⟩

/-- A sample create-session success payload. -/
def exInterviewSession : InterviewSessionResponse :=
  ⟨"s1", ⟨4, "Week 4", "desc", ["A", "B"]⟩, 2⟩

/-- A tab whose session storage caches an avatar token, with a connected
controller instance. -/
def exTab : TabState := ⟨exConnAvatar, some "cached-tok"⟩

/-- The same tab after a successful `disconnect`. -/
def exTabAfter : TabState := ⟨clearedAvatar exConnAvatar, some "cached-tok"⟩

/-! ## Claims -/

/-- C1: when a `submitAnswer` result has `is_complete` true, the phase
moves to `completing` and the fixed 2.5-second settling timer is armed;
the timer body calls `completeSession` then `getSessionResults` exactly
once each, and when both succeed it marks the session finished
(`hasFinished`) and stores the fetched results record. -/
theorem c1_completion_flow (s : RoomState) (sid : String) (env : TTSEnv)
    (data : SubmitAnswerResponse) (ack : SuccessAck)
    (results : SessionResultsResponse)
    (hsid : s.sessionId = some sid) (hc : data.is_complete = true) :
    (handleUserResponse s (.ok data) env).1.interviewState = .completing ∧
    (handleUserResponse s (.ok data) env).2 = some (.completionDelay 2500) ∧
    (runCompletionTask (handleUserResponse s (.ok data) env).1
        (.ok ack) (.ok results)).2
      = [.completeSessionCall, .getResultsCall] ∧
    (runCompletionTask (handleUserResponse s (.ok data) env).1
        (.ok ack) (.ok results)).1.hasFinished = true ∧
    (runCompletionTask (handleUserResponse s (.ok data) env).1
        (.ok ack) (.ok results)).1.sessionResults = some results := by
  simp [handleUserResponse, hsid, hc, runCompletionTask]

/-- C1 witness: the completion flow evaluated on a concrete state and a
concrete completing result. -/
theorem c1_completion_flow_witness :
    exRoomProcessing.sessionId = some "s1" ∧
    exSubmitComplete.is_complete = true ∧
    ((handleUserResponse exRoomProcessing (.ok exSubmitComplete) exTTSEnv).1.interviewState
        = .completing ∧
     (handleUserResponse exRoomProcessing (.ok exSubmitComplete) exTTSEnv).2
        = some (.completionDelay 2500) ∧
     (runCompletionTask (handleUserResponse exRoomProcessing (.ok exSubmitComplete) exTTSEnv).1
         (.ok ⟨true⟩) (.ok exResults)).2
        = [.completeSessionCall, .getResultsCall] ∧
     (runCompletionTask (handleUserResponse exRoomProcessing (.ok exSubmitComplete) exTTSEnv).1
         (.ok ⟨true⟩) (.ok exResults)).1.hasFinished = true ∧
     (runCompletionTask (handleUserResponse exRoomProcessing (.ok exSubmitComplete) exTTSEnv).1
         (.ok ⟨true⟩) (.ok exResults)).1.sessionResults = some exResults) :=
  ⟨rfl, rfl, c1_completion_flow exRoomProcessing "s1" exTTSEnv exSubmitComplete
    ⟨true⟩ exResults rfl rfl⟩

/-- C2 counterexample: a `submitAnswer` result with `is_complete` false
and no next question matches neither branch of `handleUserResponse`; the
state is returned untouched and the phase stays `processing`. -/
theorem c2_stuck_in_processing_counterexample :
    exRoomProcessing.interviewState = .processing ∧
    exSubmitStuck.is_complete = false ∧
    exSubmitStuck.next_question = none ∧
    (handleUserResponse exRoomProcessing (.ok exSubmitStuck) exTTSEnv).1
      = exRoomProcessing ∧
    (handleUserResponse exRoomProcessing (.ok exSubmitStuck) exTTSEnv).2 = none :=
  ⟨rfl, rfl, rfl, rfl, rfl⟩

/-- C2 amended: every settlement that rejects, or fulfils with
`is_complete` true, or fulfils with a truthy `next_question`, leaves the
`listening`/`processing` phases (to `idle`, `completing`, or `asking`
followed by the armed idle timer); the excluded settlement shape
(`is_complete` false, `next_question` null or empty) keeps the phase. -/
theorem c2_covered_settlements_leave_processing (s : RoomState) (sid : String)
    (env : TTSEnv) (outcome : Except ApiError SubmitAnswerResponse)
    (hsid : s.sessionId = some sid)
    (hcov : (∃ e, outcome = .error e) ∨
            (∃ d, outcome = .ok d ∧
              (d.is_complete = true ∨ truthy d.next_question = true))) :
    ((handleUserResponse s outcome env).1.interviewState = .idle ∨
     (handleUserResponse s outcome env).1.interviewState = .completing ∨
     (handleUserResponse s outcome env).1.interviewState = .asking) ∧
    ((handleUserResponse s outcome env).1.interviewState = .asking →
      (handleUserResponse s outcome env).2 = some (.idleDelay 1000) ∧
      (runIdleDelay (handleUserResponse s outcome env).1).interviewState = .idle) := by
  rcases hcov with ⟨e, he⟩ | ⟨d, hd, hbranch⟩
  · subst he
    simp [handleUserResponse, hsid]
  · subst hd
    rcases hbranch with hc | ht
    · simp [handleUserResponse, hsid, hc]
    · by_cases hc : d.is_complete = true
      · simp [handleUserResponse, hsid, hc]
      · simp [handleUserResponse, hsid, hc, ht, runIdleDelay]

/-- C2 witness: a concrete advancing settlement from `processing` lands
in `asking` with the idle timer armed. -/
theorem c2_covered_settlements_leave_processing_witness :
    exRoomProcessing.sessionId = some "s1" ∧
    (((handleUserResponse exRoomProcessing (.ok exSubmitNext) exTTSEnv).1.interviewState = .idle ∨
      (handleUserResponse exRoomProcessing (.ok exSubmitNext) exTTSEnv).1.interviewState = .completing ∨
      (handleUserResponse exRoomProcessing (.ok exSubmitNext) exTTSEnv).1.interviewState = .asking) ∧
     ((handleUserResponse exRoomProcessing (.ok exSubmitNext) exTTSEnv).1.interviewState = .asking →
       (handleUserResponse exRoomProcessing (.ok exSubmitNext) exTTSEnv).2
          = some (.idleDelay 1000) ∧
       (runIdleDelay (handleUserResponse exRoomProcessing (.ok exSubmitNext) exTTSEnv).1).interviewState
          = .idle)) :=
  ⟨rfl, c2_covered_settlements_leave_processing exRoomProcessing "s1" exTTSEnv
    (.ok exSubmitNext) rfl (Or.inr ⟨exSubmitNext, rfl, Or.inr rfl⟩)⟩

/-- C4: a rejected answer submission hits the `catch`, which only resets
the phase to `idle`; the current question text, the question index, the
session identity and the results are all left unchanged. -/
theorem c4_submit_failure_returns_idle (s : RoomState) (sid : String)
    (e : ApiError) (env : TTSEnv) (hsid : s.sessionId = some sid) :
    handleUserResponse s (.error e) env
      = ({ s with interviewState := .idle }, none) ∧
    (handleUserResponse s (.error e) env).1.currentQuestion = s.currentQuestion ∧
    (handleUserResponse s (.error e) env).1.currentQuestionIndex
      = s.currentQuestionIndex ∧
    (handleUserResponse s (.error e) env).1.sessionId = s.sessionId ∧
    (handleUserResponse s (.error e) env).1.sessionResults = s.sessionResults := by
  simp [handleUserResponse, hsid]

/-- C4 witness: a concrete rejection from `processing` yields exactly the
idle-phase copy of the state. -/
theorem c4_submit_failure_returns_idle_witness :
    exRoomProcessing.sessionId = some "s1" ∧
    (handleUserResponse exRoomProcessing (.error ⟨"Failed to submit answer: 500", false⟩) exTTSEnv
      = ({ exRoomProcessing with interviewState := .idle }, none) ∧
     (handleUserResponse exRoomProcessing (.error ⟨"Failed to submit answer: 500", false⟩) exTTSEnv).1.currentQuestion
      = exRoomProcessing.currentQuestion ∧
     (handleUserResponse exRoomProcessing (.error ⟨"Failed to submit answer: 500", false⟩) exTTSEnv).1.currentQuestionIndex
      = exRoomProcessing.currentQuestionIndex ∧
     (handleUserResponse exRoomProcessing (.error ⟨"Failed to submit answer: 500", false⟩) exTTSEnv).1.sessionId
      = exRoomProcessing.sessionId ∧
     (handleUserResponse exRoomProcessing (.error ⟨"Failed to submit answer: 500", false⟩) exTTSEnv).1.sessionResults
      = exRoomProcessing.sessionResults) :=
  ⟨rfl, c4_submit_failure_returns_idle exRoomProcessing "s1"
    ⟨"Failed to submit answer: 500", false⟩ exTTSEnv rfl⟩

/-- C3 counterexample: `submitAnswer` returns a 2xx body carrying a
truthy error-detail field as a success value instead of failing, so not
every client operation treats such responses as failures. -/
theorem c3_detail_in_ok_accepted_counterexample :
    truthy (some "Internal server error") = true ∧
    submitAnswer ⟨true, "OK", some "Internal server error", exSubmitNext⟩
      = .ok exSubmitNext ∧
    getSessionResults ⟨true, "OK", some "Internal server error", exResults⟩
      = .ok exResults :=
  ⟨rfl, rfl, rfl⟩

/-- C3 amended: only the two creation operations check the error-detail
field of a 2xx body and fail on it; `getQuestion`, `submitAnswer`,
`speakTTS`, `completeSession` and `getSessionResults` return every 2xx
body as a success, error-detail field or not. -/
theorem c3_only_create_ops_check_detail :
    (∀ res : ApiResponse InterviewSessionResponse,
        res.ok = true → truthy res.detail = true →
        ∃ e, createInterviewSession res = .error e) ∧
    (∀ res : ApiResponse AvatarSessionResponse,
        res.ok = true → truthy res.detail = true →
        ∃ e, createAvatarSession res = .error e) ∧
    (∀ res : ApiResponse QuestionResponse,
        res.ok = true → getQuestion res = .ok res.body) ∧
    (∀ res : ApiResponse SubmitAnswerResponse,
        res.ok = true → submitAnswer res = .ok res.body) ∧
    (∀ res : ApiResponse TTSResponse,
        res.ok = true → speakTTS res = .ok res.body) ∧
    (∀ res : ApiResponse SuccessAck,
        res.ok = true → completeSession res = .ok res.body) ∧
    (∀ res : ApiResponse SessionResultsResponse,
        res.ok = true → getSessionResults res = .ok res.body) := by
  refine ⟨?_, ?_, ?_, ?_, ?_, ?_, ?_⟩
  · intro res hok hdet
    simp [createInterviewSession, hok, hdet]
  · intro res hok hdet
    refine ⟨taggedAvatarError (res.detail.getD ""), ?_⟩
    simp [createAvatarSession, hok, hdet]
  · intro res hok; simp [getQuestion, hok]
  · intro res hok; simp [submitAnswer, hok]
  · intro res hok; simp [speakTTS, hok]
  · intro res hok; simp [completeSession, hok]
  · intro res hok; simp [getSessionResults, hok]

/-- C3 witness: the detail check of `createInterviewSession` firing on a
concrete 2xx body, while `submitAnswer` accepts one. -/
theorem c3_only_create_ops_check_detail_witness :
    (∃ e, createInterviewSession ⟨true, "OK", some "boom", exInterviewSession⟩
        = .error e) ∧
    submitAnswer ⟨true, "OK", some "boom", exSubmitNext⟩ = .ok exSubmitNext :=
  ⟨c3_only_create_ops_check_detail.1 ⟨true, "OK", some "boom", exInterviewSession⟩ rfl rfl,
   c3_only_create_ops_check_detail.2.2.2.1 ⟨true, "OK", some "boom", exSubmitNext⟩ rfl⟩

/-- Helper: the tag computed by `taggedAvatarError` is exactly the
substring test on its lower-cased message. -/
theorem taggedAvatarError_tag (m : String) :
    (taggedAvatarError m).isConcurrencyLimit
      = strIncludes (lowerStr m) "concurrency limit" := by
  cases h : strIncludes (lowerStr m) "concurrency limit" <;>
    simp [taggedAvatarError, h]

/-- Helper: `taggedAvatarError` keeps the message it is given. -/
theorem taggedAvatarError_message (m : String) :
    (taggedAvatarError m).message = m := by
  cases h : strIncludes (lowerStr m) "concurrency limit" <;>
    simp [taggedAvatarError, h]

/-- C5: every failure of `createAvatarSession` carries the concurrency
tag exactly when its lower-cased message contains "concurrency limit"
(whether the message came from a non-2xx status or from a detail field in
a 2xx body), and a 2xx body without detail but missing a required
connection field fails with the fixed generic untagged error. -/
theorem c5_concurrency_limit_tagging :
    (∀ (res : ApiResponse AvatarSessionResponse) (e : ApiError),
        createAvatarSession res = .error e →
        e.isConcurrencyLimit = strIncludes (lowerStr e.message) "concurrency limit") ∧
    (∀ res : ApiResponse AvatarSessionResponse,
        res.ok = true → truthy res.detail = false →
        (res.body.livekit_url = "" ∨ res.body.livekit_token = "") →
        createAvatarSession res
          = .error ⟨"Missing LiveKit connection details in response", false⟩) := by
  constructor
  · intro res e h
    unfold createAvatarSession at h
    split at h
    · injection h with h1
      subst h1
      rw [taggedAvatarError_message]
      exact taggedAvatarError_tag _
    · split at h
      · injection h with h1
        subst h1
        rw [taggedAvatarError_message]
        exact taggedAvatarError_tag _
      · split at h
        · injection h with h1
          subst h1
          decide
        · exact absurd h (by simp)
  · intro res hok hdet hmiss
    have hcond : (res.body.livekit_url == "" || res.body.livekit_token == "") = true := by
      rcases hmiss with h | h <;> simp [h]
    simp [createAvatarSession, hok, hdet, hcond]

/-- C5 witness: a concrete concurrency-limit detail in a non-2xx response
yields the tagged error, and the tag equation evaluated there. -/
theorem c5_concurrency_limit_tagging_witness :
    createAvatarSession
        ⟨false, "Too Many Requests", some "Concurrency limit reached", exAvatarSession⟩
      = .error ⟨"Concurrency limit reached", true⟩ ∧
    (⟨"Concurrency limit reached", true⟩ : ApiError).isConcurrencyLimit
      = strIncludes (lowerStr "Concurrency limit reached") "concurrency limit" :=
  ⟨by decide,
   c5_concurrency_limit_tagging.1
     ⟨false, "Too Many Requests", some "Concurrency limit reached", exAvatarSession⟩
     ⟨"Concurrency limit reached", true⟩ (by decide)⟩

/-- Helper: whenever `disconnect` does not throw, what it returns is the
fully cleared state. -/
theorem disconnect_ok_eq (s : AvatarState) (b : Bool) (s1 : AvatarState)
    (h : disconnect s b = .ok s1) : s1 = clearedAvatar s := by
  unfold disconnect at h
  split at h
  · split at h
    · split at h
      · exact (Except.ok.inj h).symm
      · exact absurd h (by simp)
    · exact (Except.ok.inj h).symm
  · exact (Except.ok.inj h).symm

/-- C6: `disconnect` is idempotent: on an already cleared controller it
is a no-op that raises no error, and whenever a call succeeds, a second
call succeeds with the very same end state (the cleared one: room handle
gone, flags reset). -/
theorem c6_disconnect_idempotent :
    (∀ (s : AvatarState) (b : Bool),
        disconnect (clearedAvatar s) b = .ok (clearedAvatar s)) ∧
    (∀ (s s1 : AvatarState) (b1 b2 : Bool),
        disconnect s b1 = .ok s1 →
        s1 = clearedAvatar s ∧ disconnect s1 b2 = .ok s1) := by
  constructor
  · intro s b
    rfl
  · intro s s1 b1 b2 h
    have hs1 := disconnect_ok_eq s b1 s1 h
    subst hs1
    exact ⟨rfl, rfl⟩

/-- C6 witness: both calls evaluated on a concrete connected controller. -/
theorem c6_disconnect_idempotent_witness :
    clearedAvatar exConnAvatar = clearedAvatar exConnAvatar ∧
    disconnect (clearedAvatar exConnAvatar) true = .ok (clearedAvatar exConnAvatar) :=
  c6_disconnect_idempotent.2 exConnAvatar (clearedAvatar exConnAvatar) true true rfl

/-- C7 counterexample: a successful `disconnect` leaves the cached
session-storage token in place, and the subsequent mount of a fresh
controller instance in that tab performs no realtime-session creation
and opens no room, contradicting the claim that the token is cleared so
a remount creates a fresh session. -/
theorem c7_token_survives_counterexample :
    disconnectTab exTab true = .ok exTabAfter ∧
    exTabAfter.storageToken = some "cached-tok" ∧
    (mountTab exTabAfter (.ok exAvatarSession) true).2 = [] ∧
    (mountTab exTabAfter (.ok exAvatarSession) true).1.avatar.room = none :=
  ⟨rfl, rfl, rfl, rfl⟩

/-- C7 amended: `disconnect` resets the room handle and the internal
flags but leaves the session-storage token untouched; a subsequent mount
of a fresh instance issues a realtime-session creation exactly when no
truthy token is cached in session storage. -/
theorem c7_flags_reset_token_survives :
    (∀ (t : TabState) (b : Bool) (t1 : TabState),
        disconnectTab t b = .ok t1 →
        t1.storageToken = t.storageToken ∧ t1.avatar = clearedAvatar t.avatar) ∧
    (∀ (t : TabState) (c : Except ApiError AvatarSessionResponse) (k : Bool),
        truthy t.storageToken = false →
        (mountTab t c k).2 = [.createRealtimeSessionCall]) ∧
    (∀ (t : TabState) (c : Except ApiError AvatarSessionResponse) (k : Bool),
        truthy t.storageToken = true →
        (mountTab t c k).2 = []) := by
  refine ⟨?_, ?_, ?_⟩
  · intro t b t1 h
    unfold disconnectTab at h
    cases hd : disconnect t.avatar b with
    | error e => rw [hd] at h; exact absurd h (by simp)
    | ok a =>
      rw [hd] at h
      have ht1 := (Except.ok.inj h).symm
      subst ht1
      exact ⟨rfl, disconnect_ok_eq t.avatar b a hd⟩
  · intro t c k h
    unfold mountTab mountEffect
    simp only [initialAvatarState, h]
    cases c with
    | error e => simp
    | ok data =>
      by_cases hm : (data.livekit_url == "" || data.livekit_token == "") = true
      · simp [hm]
      · cases hk : k <;> simp [hm]
  · intro t c k h
    unfold mountTab mountEffect
    simp [initialAvatarState, h]

/-- C7 amended witness: the amended statement evaluated on the concrete
tab that still caches its token after disconnecting. -/
theorem c7_flags_reset_token_survives_witness :
    exTabAfter.storageToken = exTab.storageToken ∧
    exTabAfter.avatar = clearedAvatar exTab.avatar :=
  c7_flags_reset_token_survives.1 exTab true exTabAfter rfl

/-- C8: playback failure is never fatal: an advancing settlement reaches
`asking` with the idle timer armed for every playback environment
(including failing ones), and neither the phase, the question data, the
finished flag, the armed timer, nor the initialization verdict of
`initializeSession` depend on how TTS or playback settled (only the
audio element does). -/
theorem c8_playback_failure_not_fatal :
    (∀ (s : RoomState) (sid : String) (env : TTSEnv) (d : SubmitAnswerResponse),
        s.sessionId = some sid → d.is_complete = false →
        truthy d.next_question = true →
        (handleUserResponse s (.ok d) env).1.interviewState = .asking ∧
        (handleUserResponse s (.ok d) env).2 = some (.idleDelay 1000)) ∧
    (∀ (s : RoomState) (outcome : Except ApiError SubmitAnswerResponse)
        (env env' : TTSEnv),
        (handleUserResponse s outcome env).1.interviewState
          = (handleUserResponse s outcome env').1.interviewState ∧
        (handleUserResponse s outcome env).1.currentQuestion
          = (handleUserResponse s outcome env').1.currentQuestion ∧
        (handleUserResponse s outcome env).1.currentQuestionIndex
          = (handleUserResponse s outcome env').1.currentQuestionIndex ∧
        (handleUserResponse s outcome env).1.hasFinished
          = (handleUserResponse s outcome env').1.hasFinished ∧
        (handleUserResponse s outcome env).2 = (handleUserResponse s outcome env').2) ∧
    (∀ (s : RoomState) (c : Except ApiError InterviewSessionResponse)
        (q : Except ApiError QuestionResponse) (env env' : TTSEnv),
        (initializeSession s c q env).2 = (initializeSession s c q env').2 ∧
        (initializeSession s c q env).1.interviewState
          = (initializeSession s c q env').1.interviewState) := by
  refine ⟨?_, ?_, ?_⟩
  · intro s sid env d hsid hc ht
    simp [handleUserResponse, hsid, hc, ht]
  · intro s outcome env env'
    cases hs : s.sessionId with
    | none => simp [handleUserResponse, hs]
    | some sid =>
      cases outcome with
      | error e => simp [handleUserResponse, hs]
      | ok d =>
        by_cases hc : d.is_complete = true
        · simp [handleUserResponse, hs, hc]
        · by_cases ht : truthy d.next_question = true
          · simp [handleUserResponse, hs, hc, ht]
          · simp [handleUserResponse, hs, hc, ht]
  · intro s c q env env'
    cases c with
    | error e => simp [initializeSession]
    | ok r =>
      cases q with
      | error e => simp [initializeSession]
      | ok qq => simp [initializeSession]

/-- C8 witness: with a failing TTS environment, a concrete advancing
settlement still reaches `asking` with the idle timer armed. -/
theorem c8_playback_failure_not_fatal_witness :
    exRoomProcessing.sessionId = some "s1" ∧
    exSubmitNext.is_complete = false ∧
    truthy exSubmitNext.next_question = true ∧
    ((handleUserResponse exRoomProcessing (.ok exSubmitNext) exTTSFailEnv).1.interviewState
        = .asking ∧
     (handleUserResponse exRoomProcessing (.ok exSubmitNext) exTTSFailEnv).2
        = some (.idleDelay 1000)) :=
  ⟨rfl, rfl, rfl,
   c8_playback_failure_not_fatal.1 exRoomProcessing "s1" exTTSFailEnv exSubmitNext
     rfl rfl rfl⟩

/-- C10: a truthy token cached in session storage makes the mount effect
bail out: no realtime-session creation is issued, the room handle stays
absent, the connected flag stays down, and every `speak` on that instance
is the warning no-op that publishes nothing. -/
theorem c10_cached_token_mount_inert (env : MountEnv) (tok : String)
    (h1 : env.storageToken = some tok) (h2 : tok ≠ "") :
    (mountEffect initialAvatarState env).1.room = none ∧
    (mountEffect initialAvatarState env).1.isConnected = false ∧
    (mountEffect initialAvatarState env).1.hasSession = true ∧
    (mountEffect initialAvatarState env).2 = [] ∧
    (∀ (text : String) (pubOk : Bool),
        speak (mountEffect initialAvatarState env).1 text pubOk
          = .ok .warnedNoRoom ∧
        Except.map publishedEvent
            (speak (mountEffect initialAvatarState env).1 text pubOk)
          = .ok none) := by
  have htr : truthy env.storageToken = true := by
    rw [h1]
    simp [truthy, h2]
  have hstep : mountEffect initialAvatarState env
      = ({ initialAvatarState with hasSession := true }, []) := by
    unfold mountEffect
    simp [initialAvatarState, htr]
  rw [hstep]
  refine ⟨rfl, rfl, rfl, rfl, ?_⟩
  intro text pubOk
  exact ⟨rfl, rfl⟩

/-- C10 witness: the inert mount evaluated on a concrete cached token. -/
theorem c10_cached_token_mount_inert_witness :
    (⟨some "tok-1", .ok exAvatarSession, true⟩ : MountEnv).storageToken
        = some "tok-1" ∧
    ((mountEffect initialAvatarState ⟨some "tok-1", .ok exAvatarSession, true⟩).1.room
        = none ∧
     (mountEffect initialAvatarState ⟨some "tok-1", .ok exAvatarSession, true⟩).1.isConnected
        = false ∧
     (mountEffect initialAvatarState ⟨some "tok-1", .ok exAvatarSession, true⟩).1.hasSession
        = true ∧
     (mountEffect initialAvatarState ⟨some "tok-1", .ok exAvatarSession, true⟩).2 = [] ∧
     (∀ (text : String) (pubOk : Bool),
        speak (mountEffect initialAvatarState
            ⟨some "tok-1", .ok exAvatarSession, true⟩).1 text pubOk
          = .ok .warnedNoRoom ∧
        Except.map publishedEvent
            (speak (mountEffect initialAvatarState
              ⟨some "tok-1", .ok exAvatarSession, true⟩).1 text pubOk)
          = .ok none)) :=
  ⟨rfl, c10_cached_token_mount_inert ⟨some "tok-1", .ok exAvatarSession, true⟩
    "tok-1" rfl (by decide)⟩

/-- Helper: a `≤`-chain stays a chain when its second element is removed. -/
theorem chainLe_drop_second {x a : Nat} {l : List Nat}
    (h : List.Chain' (fun p q => p ≤ q) (x :: a :: l)) :
    List.Chain' (fun p q => p ≤ q) (x :: l) := by
  rcases l with _ | ⟨b, l⟩
  · simp
  · rw [List.chain'_cons] at h
    rcases h with ⟨hxa, h2⟩
    rw [List.chain'_cons] at h2
    rw [List.chain'_cons]
    exact ⟨le_trans hxa h2.1, h2.2⟩

/-- Helper: extend a `≤`-chain by a new head bounded by the old one. -/
theorem chainLe_cons_head (x : Nat) (l : List Nat)
    (hhead : ∀ y, l.head? = some y → x ≤ y)
    (hch : List.Chain' (fun p q => p ≤ q) l) :
    List.Chain' (fun p q => p ≤ q) (x :: l) := by
  rcases l with _ | ⟨b, l⟩
  · simp
  · rw [List.chain'_cons]
    exact ⟨hhead b rfl, hch⟩

/-- Helper: the index trace always starts at the current index. -/
theorem indexTrace_head (env : TTSEnv) (s : RoomState)
    (outcomes : List (Except ApiError SubmitAnswerResponse)) :
    (indexTrace env s outcomes).head? = some s.currentQuestionIndex := by
  cases outcomes <;> rfl

/-- Helper: dropping the first settlement keeps the assigned-index
hypothesis chain intact. -/
theorem chainLe_tail_assigned (x : Nat) (o : Except ApiError SubmitAnswerResponse)
    (rest : List (Except ApiError SubmitAnswerResponse))
    (h : List.Chain' (fun p q => p ≤ q) (x :: assignedIndices (o :: rest))) :
    List.Chain' (fun p q => p ≤ q) (x :: assignedIndices rest) := by
  cases o with
  | error e => simpa [assignedIndices] using h
  | ok d =>
    by_cases hc : d.is_complete = true
    · simpa [assignedIndices, hc] using h
    · by_cases ht : truthy d.next_question = true
      · rw [show assignedIndices (.ok d :: rest)
            = d.question_index :: assignedIndices rest by
              simp [assignedIndices, hc, ht]] at h
        exact chainLe_drop_second h
      · simpa [assignedIndices, hc, ht] using h

/-- C9 counterexample: the state machine copies the server-echoed
`question_index` verbatim, so a settlement sequence whose indices go
1 then 0 drives `currentQuestionIndex` from 0 up to 1 and back down to
0 — the trace is not monotonically non-decreasing. -/
theorem c9_index_decreases_counterexample :
    indexTrace exTTSEnv exRoomIdle [.ok exSubmitNext, .ok exSubmitBack]
      = [0, 1, 0] ∧
    ¬ List.Chain' (fun p q => p ≤ q)
        (indexTrace exTTSEnv exRoomIdle [.ok exSubmitNext, .ok exSubmitBack]) := by
  constructor
  · rfl
  · intro hch
    rw [show indexTrace exTTSEnv exRoomIdle [.ok exSubmitNext, .ok exSubmitBack]
        = [0, 1, 0] from rfl] at hch
    rw [List.chain'_cons] at hch
    rcases hch with ⟨h01, hch2⟩
    rw [List.chain'_cons] at hch2
    exact absurd hch2.1 (by decide)

/-- C9 amended: every update assigns exactly the server-echoed index, so
provided the indices the settlements assign never decrease (starting
from the held index — the documented external-collaborator contract),
the sequence of `currentQuestionIndex` values over any settlement run is
monotonically non-decreasing. -/
theorem c9_monotone_under_server_contract (env : TTSEnv) :
    ∀ (outcomes : List (Except ApiError SubmitAnswerResponse)) (s : RoomState),
      List.Chain' (fun p q => p ≤ q)
        (s.currentQuestionIndex :: assignedIndices outcomes) →
      List.Chain' (fun p q => p ≤ q) (indexTrace env s outcomes) := by
  intro outcomes
  induction outcomes with
  | nil =>
    intro s _
    simp [indexTrace]
  | cons o rest ih =>
    intro s h
    show List.Chain' (fun p q => p ≤ q)
      (s.currentQuestionIndex :: indexTrace env (handleUserResponse s o env).1 rest)
    have main :
        s.currentQuestionIndex ≤ (handleUserResponse s o env).1.currentQuestionIndex →
        List.Chain' (fun p q => p ≤ q)
          ((handleUserResponse s o env).1.currentQuestionIndex :: assignedIndices rest) →
        List.Chain' (fun p q => p ≤ q)
          (s.currentQuestionIndex :: indexTrace env (handleUserResponse s o env).1 rest) := by
      intro hle hch
      apply chainLe_cons_head
      · intro y hy
        rw [indexTrace_head] at hy
        injection hy with hy
        exact hy ▸ hle
      · exact ih _ hch
    cases hs : s.sessionId with
    | none =>
      have hidx : (handleUserResponse s o env).1.currentQuestionIndex
          = s.currentQuestionIndex := by
        simp [handleUserResponse, hs]
      exact main (by simp [hidx])
        (by rw [hidx]; exact chainLe_tail_assigned _ o rest h)
    | some sid =>
      cases o with
      | error e =>
        have hidx : (handleUserResponse s (.error e) env).1.currentQuestionIndex
            = s.currentQuestionIndex := by
          simp [handleUserResponse, hs]
        exact main (by simp [hidx])
          (by rw [hidx]; exact chainLe_tail_assigned _ (.error e) rest h)
      | ok d =>
        by_cases hc : d.is_complete = true
        · have hidx : (handleUserResponse s (.ok d) env).1.currentQuestionIndex
              = s.currentQuestionIndex := by
            simp [handleUserResponse, hs, hc]
          exact main (by simp [hidx])
            (by rw [hidx]; exact chainLe_tail_assigned _ (.ok d) rest h)
        · by_cases ht : truthy d.next_question = true
          · have hidx : (handleUserResponse s (.ok d) env).1.currentQuestionIndex
                = d.question_index := by
              simp [handleUserResponse, hs, hc, ht]
            have hasg : assignedIndices (.ok d :: rest)
                = d.question_index :: assignedIndices rest := by
              simp [assignedIndices, hc, ht]
            rw [hasg, List.chain'_cons] at h
            exact main (by rw [hidx]; exact h.1) (by rw [hidx]; exact h.2)
          · have hidx : (handleUserResponse s (.ok d) env).1.currentQuestionIndex
                = s.currentQuestionIndex := by
              simp [handleUserResponse, hs, hc, ht]
            exact main (by simp [hidx])
              (by rw [hidx]; exact chainLe_tail_assigned _ (.ok d) rest h)

/-- C9 amended witness: a non-decreasing pair of settlements produces a
non-decreasing trace on a concrete state. -/
theorem c9_monotone_under_server_contract_witness :
    List.Chain' (fun p q => p ≤ q)
      (exRoomIdle.currentQuestionIndex
        :: assignedIndices [.ok exSubmitNext, .ok exSubmitComplete]) ∧
    List.Chain' (fun p q => p ≤ q)
      (indexTrace exTTSEnv exRoomIdle [.ok exSubmitNext, .ok exSubmitComplete]) :=
  ⟨by
    rw [show exRoomIdle.currentQuestionIndex
        :: assignedIndices [Except.ok exSubmitNext, Except.ok exSubmitComplete]
        = [0, 1] from rfl]
    exact List.chain'_pair.mpr (by decide),
   c9_monotone_under_server_contract exTTSEnv
     [.ok exSubmitNext, .ok exSubmitComplete] exRoomIdle
     (by
       rw [show exRoomIdle.currentQuestionIndex
           :: assignedIndices [Except.ok exSubmitNext, Except.ok exSubmitComplete]
           = [0, 1] from rfl]
       exact List.chain'_pair.mpr (by decide))⟩

end VirtualReviewer
